import Mathlib

/-!
Verification of the multi-strategy field-extraction engine of the
scraper-backend repository (files new_glassdoor.py and
run_glassdoor_scraper.py), via a shallow embedding in Lean 4.

Conventions of the embedding:
- Python values flowing through the extraction pipeline are modelled by
  the type PyVal (strings, lists, dicts, integers, booleans, None), with
  Python truthiness modelled by pyTruthy.
- Parsed HTML (BeautifulSoup) is modelled by the type Node; tag.descendants
  is the preorder traversal of the subtree, and get_text with strip
  concatenates the stripped non-empty string leaves.
- Python str.strip is modelled by String.trim, str.lower by String.toLower
  (both agree with Python on the ASCII inputs used throughout).
- Regular-expression patterns of the source are embedded as RE values and
  evaluated by a backtracking matcher that mirrors re.search semantics:
  leftmost match position, alternatives tried left to right, greedy
  quantifiers, IGNORECASE on letters, with \w and \s read over ASCII.
-/

/-- Python str.strip() (for the ASCII whitespace relevant here), written
over the character list so that it evaluates by kernel reduction. -/
def pyStrip (s : String) : String :=
  String.mk (((s.data.dropWhile Char.isWhitespace).reverse.dropWhile Char.isWhitespace).reverse)

/-- Python str.lower over ASCII, written over the character list. -/
def pyToLower (s : String) : String := String.mk (s.data.map Char.toLower)

/-- Emptiness of a string, written over the character list. -/
def strIsEmpty (s : String) : Bool := s.data.isEmpty

/-- Python s.split(1 comma argument): split at every comma, keeping empty
pieces (the empty string yields one empty piece). -/
def splitCommaAux : List Char → List Char → List String
  | [], acc => [String.mk acc.reverse]
  | c :: rest, acc =>
    if c = ',' then String.mk acc.reverse :: splitCommaAux rest []
    else splitCommaAux rest (c :: acc)

/-- Python s.split(1 comma argument) over a string. -/
def pySplitComma (s : String) : List String := splitCommaAux s.data []

/-- Model of the Python values that flow through the extraction pipeline. -/
inductive PyVal where
  | str (s : String)
  | list (xs : List PyVal)
  | dict (kvs : List (String × PyVal))
  | num (n : Int)
  | bool (b : Bool)
  | null
deriving Repr

/-- Python truthiness for PyVal (empty string, empty list, empty dict,
zero, False and None are falsy). -/
def pyTruthy : PyVal → Bool
  | PyVal.str s => !strIsEmpty s
  | PyVal.list xs => !xs.isEmpty
  | PyVal.dict kvs => !kvs.isEmpty
  | PyVal.num n => n != 0
  | PyVal.bool b => b
  | PyVal.null => false

/-- Truthiness of an optional value (None is falsy). -/
def optTruthy : Option PyVal → Bool
  | none => false
  | some v => pyTruthy v

/-- Truthiness of an optional string. -/
def optStrTruthy : Option String → Bool
  | none => false
  | some s => !strIsEmpty s

/-- Python str.rstrip(1 colon argument): remove all trailing colons. -/
def rstripColon (s : String) : String :=
  String.mk ((s.data.reverse.dropWhile (fun c => c = ':')).reverse)

/-- Python v.split(1 comma) followed by per-item strip and dropping of
empty items, as in the ensure_list and skill-normalization code. -/
def splitCommaStripFilter (s : String) : List String :=
  ((pySplitComma s).map pyStrip).filter (fun t => t ≠ "")

/-- Model of a parsed HTML node (a BeautifulSoup Tag or NavigableString). -/
inductive Node where
  | elem (tag : String) (classes : List String) (attrs : List (String × String)) (children : List Node)
  | text (s : String)
deriving Repr

mutual

/-- The string leaves of a node in document order (the strings that
bs4 get_text concatenates). -/
def nodeStrings : Node → List String
  | Node.text s => [s]
  | Node.elem _ _ _ cs => nodeStringsList cs

/-- The string leaves of a forest in document order. -/
def nodeStringsList : List Node → List String
  | [] => []
  | c :: rest => nodeStrings c ++ nodeStringsList rest

end

/-- bs4 get_text(separator=sep, strip=True): strip every string leaf,
drop those that become empty, join with the separator. -/
def getTextStrip (sep : String) (n : Node) : String :=
  String.intercalate sep (((nodeStrings n).map pyStrip).filter (fun t => t ≠ ""))

mutual

/-- bs4 tag.descendants: preorder traversal of the strict subtree. -/
def descendants : Node → List Node
  | Node.text _ => []
  | Node.elem _ _ _ cs => descendantsList cs

/-- Preorder traversal of a forest: each root followed by its subtree. -/
def descendantsList : List Node → List Node
  | [] => []
  | c :: rest => c :: descendants c ++ descendantsList rest

end

/-- Tag name of an element node (None-like for strings). -/
def nodeTag : Node → Option String
  | Node.elem t _ _ _ => some t
  | Node.text _ => none

/-- Does the node carry the given CSS class? -/
def hasClass (c : String) : Node → Bool
  | Node.elem _ cls _ _ => cls.contains c
  | Node.text _ => false

/-- Does the node carry the given attribute value? -/
def hasAttr (k v : String) : Node → Bool
  | Node.elem _ _ attrs _ => (attrs.lookup k) = some v
  | Node.text _ => false

/-- First descendant of the document satisfying the predicate
(bs4 find / select_one return the first match in document order). -/
def findFirst (p : Node → Bool) (doc : Node) : Option Node :=
  (descendants doc).find? p

/-- The header dictionary of FieldExtractor (new_glassdoor.py lines 312-342):
normalized header text to canonical field name. -/
def section_map : List (String × String) :=
  [("responsibilities", "responsibilities"),
   ("key responsibilities", "responsibilities"),
   ("qualifications", "qualifications"),
   ("what we\x27re looking for", "requirements"),
   ("what we are looking for", "requirements"),
   ("requirements", "requirements"),
   ("what you\x27ll gain", "perks"),
   ("what you will gain", "perks"),
   ("benefits", "benefits"),
   ("schedule", "schedule"),
   ("job type", "jobType"),
   ("type", "jobType"),
   ("contract length", "contractLength"),
   ("pay", "pay"),
   ("stipend", "pay"),
   ("work location", "workLocation"),
   ("location", "workLocation"),
   ("expected start date", "expectedStartDate"),
   ("education", "education"),
   ("most relevant skills", "mostRelevantSkills"),
   ("other relevant skills", "otherRelevantSkills"),
   ("time type", "timeType"),
   ("job family group", "jobFamilyGroup"),
   ("job family", "jobFamily"),
   ("what experience is mandatory", "mandatoryExperience"),
   ("what experience is beneficial (but optional)", "beneficialExperience"),
   ("what we offer", "perks"),
   ("application questions", "applicationQuestions"),
   ("application deadline", "applicationDeadline")]

/-- Python dict assignment d[k] = v: update in place if the key exists
(keeping its position), otherwise append. -/
def dictInsert (d : List (String × PyVal)) (k : String) (v : PyVal) : List (String × PyVal) :=
  match d with
  | [] => [(k, v)]
  | (k', v') :: rest => if k' = k then (k, v) :: rest else (k', v') :: dictInsert rest k v

/-- Python dict.get(k) over the insertion-ordered association list. -/
def pyGet (d : List (String × PyVal)) (k : String) : Option PyVal :=
  d.lookup k

/-- FieldExtractor._process_section_content (new_glassdoor.py lines 408-418):
one string is stored plain; several strings all shorter than 200 characters
are stored as a list; otherwise they are joined with a space; the empty
content list yields the empty string. -/
def _process_section_content (content : List String) : PyVal :=
  match content with
  | [x] => PyVal.str x
  | [] => PyVal.str ""
  | xs =>
    if xs.all (fun item => item.length < 200) then PyVal.list (xs.map PyVal.str)
    else PyVal.str (String.intercalate " " xs)

/-- Header-like tags of the section walker (new_glassdoor.py line 387). -/
def isHeaderTag (t : String) : Bool :=
  t = "h1" || t = "h2" || t = "h3" || t = "h4" || t = "b" || t = "strong"

/-- Content tags of the section walker (new_glassdoor.py line 397). -/
def isContentTag (t : String) : Bool :=
  t = "p" || t = "li" || t = "div"

/-- Is the node a header-like element? -/
def isHeaderNode (n : Node) : Bool :=
  match nodeTag n with
  | some t => isHeaderTag t
  | none => false

/-- Is the node a content element (paragraph, list item, div)? -/
def isContentNode (n : Node) : Bool :=
  match nodeTag n with
  | some t => isContentTag t
  | none => false

/-- State of the description walker: the pending section name
(current_section, None before the first header), the collected content
strings (current_content) and the committed sections dict. -/
structure WState where
  cur : Option String
  content : List String
  secs : List (String × PyVal)

/-- Committing the open section: only a truthy section name with non-empty
content is stored (the guard current_section and current_content). -/
def commitState (st : WState) : List (String × PyVal) :=
  if optStrTruthy st.cur && !st.content.isEmpty then
    dictInsert st.secs (st.cur.getD "") (_process_section_content st.content)
  else st.secs

/-- Normalized section name of a header node: its text lower-cased, with
trailing colons removed, mapped through section_map (new_glassdoor.py
lines 393-394). -/
def sectionNameOf (n : Node) : String :=
  let sectionText := rstripColon (pyToLower (getTextStrip "" n))
  (section_map.lookup sectionText).getD sectionText

/-- One step of the description walker of
FieldExtractor.extract_job_description_sections (new_glassdoor.py lines
385-400): header-like elements close the open section and open a new one
named by their normalized text (mapped through section_map); content
elements append their non-empty text while a section is open; strings and
other elements are skipped. -/
def stepNode (st : WState) (n : Node) : WState :=
  match nodeTag n with
  | none => st
  | some t =>
    if isHeaderTag t then
      { cur := some (sectionNameOf n), content := [], secs := commitState st }
    else if isContentTag t && optStrTruthy st.cur then
      let txt := getTextStrip "" n
      if txt ≠ "" then { st with content := st.content ++ [txt] } else st
    else st

/-- The walk over a descendant sequence, committing the final open section
at the end of traversal (new_glassdoor.py lines 381-406). -/
def walkSections (items : List Node) : List (String × PyVal) :=
  commitState (items.foldl stepNode ⟨none, [], []⟩)

/-- The description-container lookup of extract_job_description_sections
(new_glassdoor.py lines 369-379): soup.find of a div with the primary
class, then the fallback selectors, each first transformed by
selector.replace, which leaves the first fallback as a bare tag-name query
and the remaining two unchanged. -/
def findDescDiv (doc : Node) : Option Node :=
  match findFirst (fun n => (nodeTag n = some "div") && hasClass "JobDetails_jobDescription__uW_fK" n) doc with
  | some d => some d
  | none =>
    match findFirst (fun n => nodeTag n = some "JobDetails_jobDescription__uW_fK") doc with
    | some d => some d
    | none =>
      match findFirst (hasClass "JobDetails_jobDescription__6VeBn") doc with
      | some d => some d
      | none => findFirst (hasAttr "data-test" "jobDescriptionContent") doc

/-- FieldExtractor.extract_job_description_sections (new_glassdoor.py lines
366-406): an absent description container yields the empty section map;
otherwise the walker runs over the container descendants. -/
def extract_job_description_sections (doc : Node) : List (String × PyVal) :=
  match findDescDiv doc with
  | none => []
  | some d => walkSections (descendants d)

/-- Embedded regular-expression syntax: exactly the constructs used by the
patterns of the source (literals, one-char classes, alternation, greedy
option, greedy star and plus over one-char classes, a single capturing
group, and the word boundary anchor). -/
inductive RE where
  | eps
  | lit (s : List Char)
  | cls (p : Char → Bool)
  | seq (a b : RE)
  | alt (a b : RE)
  | opt (a : RE)
  | starCls (p : Char → Bool)
  | plusCls (p : Char → Bool)
  | grp (a : RE)
  | wb

/-- Case-insensitive character comparison (re.IGNORECASE over ASCII). -/
def lowEq (a b : Char) : Bool := a.toLower = b.toLower

/-- Python regex word character over ASCII: letters, digits, underscore. -/
def isWordChar (c : Char) : Bool := c.isAlphanum || c = '_'

/-- Python regex whitespace over ASCII. -/
def isSpaceChar (c : Char) : Bool :=
  c = ' ' || c = '\t' || c = '\n' || c = '\r' || c = '\x0b' || c = '\x0c'

/-- Match a literal case-insensitively at a position; return the end
position on success. -/
def litAt (full : List Char) : Nat → List Char → Option Nat
  | i, [] => some i
  | i, c :: rest =>
    match full[i]? with
    | some d => if lowEq d c then litAt full (i + 1) rest else none
    | none => none

/-- Length of the run of class characters starting at a position. -/
def runLen (full : List Char) (i : Nat) (p : Char → Bool) : Nat :=
  ((full.drop i).takeWhile p).length

/-- The word-boundary test of re at a position. -/
def atWordBoundary (full : List Char) (i : Nat) : Bool :=
  let before :=
    match i with
    | 0 => false
    | j + 1 => match full[j]? with
      | some c => isWordChar c
      | none => false
  let here :=
    match full[i]? with
    | some c => isWordChar c
    | none => false
  before != here

/-- The backtracking matcher: all ways the expression can match starting at
position i, as pairs of end position and captured-group span, listed in the
priority order of the Python engine (alternatives left to right, greedy
quantifiers longest first). -/
def mrun (full : List Char) : RE → Nat → List (Nat × Option (Nat × Nat))
  | RE.eps, i => [(i, none)]
  | RE.lit s, i =>
    match litAt full i s with
    | some j => [(j, none)]
    | none => []
  | RE.cls p, i =>
    match full[i]? with
    | some c => if p c then [(i + 1, none)] else []
    | none => []
  | RE.seq a b, i =>
    (mrun full a i).flatMap (fun r =>
      (mrun full b r.1).map (fun r2 => (r2.1, r.2 <|> r2.2)))
  | RE.alt a b, i => mrun full a i ++ mrun full b i
  | RE.opt a, i => mrun full a i ++ [(i, none)]
  | RE.starCls p, i =>
    let n := runLen full i p
    (List.range (n + 1)).map (fun k => (i + (n - k), (none : Option (Nat × Nat))))
  | RE.plusCls p, i =>
    let n := runLen full i p
    (List.range n).map (fun k => (i + (n - k), (none : Option (Nat × Nat))))
  | RE.grp a, i => (mrun full a i).map (fun r => (r.1, some (i, r.1)))
  | RE.wb, i => if atWordBoundary full i then [(i, none)] else []

/-- re.search: the leftmost position with a match wins; at that position the
first result in backtracking order is taken; the captured group-1 text is
returned (none when no match anywhere). -/
def reSearchGroup1 (r : RE) (s : String) : Option (Option String) :=
  let full := s.data
  (List.range (full.length + 1)).findSome? (fun i =>
    match mrun full r i with
    | [] => none
    | res :: _ => some (res.2.map (fun sp => String.mk ((full.drop sp.1).take (sp.2 - sp.1)))))

/-- Literal helper for the embedded patterns. -/
def litRE (s : String) : RE := RE.lit s.data

/-- The jobType pattern (both regex tables). -/
def reJobType : RE :=
  RE.seq RE.wb (RE.seq
    (RE.grp
      (RE.alt (RE.seq (litRE "full") (RE.seq (RE.opt (RE.cls (fun c => c = '-' || c = ' '))) (litRE "time")))
      (RE.alt (RE.seq (litRE "part") (RE.seq (RE.opt (RE.cls (fun c => c = '-' || c = ' '))) (litRE "time")))
      (RE.alt (litRE "contract")
      (RE.alt (litRE "internship") (litRE "temporary"))))))
    RE.wb)

/-- The pay pattern (both regex tables). -/
def rePay : RE :=
  RE.seq (RE.alt (litRE "Salary") (litRE "Pay"))
  (RE.seq (RE.opt (RE.cls (fun c => c = ':' || c = '-')))
  (RE.seq (RE.starCls isSpaceChar)
  (RE.grp
    (RE.seq (RE.opt (RE.cls (fun c => c = '₹' || c = '$' || c = '€' || c = '£')))
    (RE.seq (RE.opt (RE.cls isSpaceChar))
    (RE.seq (RE.plusCls (fun c => c.isDigit || c = ',' || c = '.'))
    (RE.opt (RE.seq (RE.starCls isSpaceChar)
             (RE.seq (RE.opt (RE.alt (litRE "per") (litRE "/")))
             (RE.seq (RE.starCls isSpaceChar) (RE.plusCls isWordChar)))))))))))

/-- The workLocation pattern (both regex tables). -/
def reWorkLocation : RE :=
  RE.seq (litRE "Work location")
  (RE.seq (RE.opt (RE.cls (fun c => c = ':' || c = '-')))
  (RE.seq (RE.starCls isSpaceChar)
  (RE.grp (RE.plusCls (fun c => c.isAlpha || c = ',' || c = ' ' || c = '-' || c = '/')))))

/-- A labeled rest-of-line pattern Label[:\-]?\s*(.+), as used for
benefits, schedule, education and the two skills fields. -/
def reLabeled (label : String) : RE :=
  RE.seq (litRE label)
  (RE.seq (RE.opt (RE.cls (fun c => c = ':' || c = '-')))
  (RE.seq (RE.starCls isSpaceChar)
  (RE.grp (RE.plusCls (fun c => c ≠ '\n')))))

/-- The static pattern table of FieldExtractor.extract_with_regex_fallback
(new_glassdoor.py lines 425-432). -/
def patternsNew : List (String × RE) :=
  [("jobType", reJobType),
   ("pay", rePay),
   ("workLocation", reWorkLocation),
   ("benefits", reLabeled "Benefits"),
   ("schedule", reLabeled "Schedule"),
   ("education", reLabeled "Education")]

/-- The static pattern table of extract_field_by_regex
(run_glassdoor_scraper.py lines 469-478). -/
def patternsRun : List (String × RE) :=
  patternsNew ++
  [("mostRelevantSkills", reLabeled "Most Relevant Skills"),
   ("otherRelevantSkills", reLabeled "Other Relevant Skills")]

/-- FieldExtractor.extract_with_regex_fallback (new_glassdoor.py lines
420-440): empty text and unknown fields give None; otherwise a single
case-insensitive search, returning the first captured group trimmed. -/
def extract_with_regex_fallback (text : String) (field : String) : Option String :=
  if strIsEmpty text then none
  else
    match patternsNew.lookup field with
    | none => none
    | some pat =>
      match reSearchGroup1 pat text with
      | none => none
      | some g => g.map pyStrip

/-- extract_field_by_regex (run_glassdoor_scraper.py lines 468-485): same
shape over the extended pattern table. -/
def extract_field_by_regex (text : String) (field : String) : Option String :=
  match patternsRun.lookup field with
  | none => none
  | some pat =>
    if strIsEmpty text then none
    else
      match reSearchGroup1 pat text with
      | none => none
      | some g => g.map pyStrip

/-- The left brace character, written by code point. -/
def jLBrace : Char := Char.ofNat 123

/-- The right brace character, written by code point. -/
def jRBrace : Char := Char.ofNat 125

/-- JSON whitespace skipping. -/
def jsonSkipWs (cs : List Char) : List Char :=
  cs.dropWhile (fun c => c = ' ' || c = '\t' || c = '\n' || c = '\r')

/-- JSON escape characters handled by the model of json.loads. -/
def jsonEsc (c : Char) : Option Char :=
  if c = '"' then some '"'
  else if c = '\\' then some '\\'
  else if c = '/' then some '/'
  else if c = 'n' then some '\n'
  else if c = 't' then some '\t'
  else if c = 'r' then some '\r'
  else if c = 'b' then some '\x08'
  else if c = 'f' then some '\x0c'
  else none

/-- Parse the body of a JSON string after the opening quote; returns the
content and the remainder after the closing quote. -/
def parseJStrAux : List Char → Option (List Char × List Char)
  | [] => none
  | c :: rest =>
    if c = '"' then some ([], rest)
    else if c = '\\' then
      match rest with
      | [] => none
      | e :: rest2 =>
        match jsonEsc e with
        | some ec => (parseJStrAux rest2).map (fun r => (ec :: r.1, r.2))
        | none => none
    else (parseJStrAux rest).map (fun r => (c :: r.1, r.2))

/-- Parse a JSON integer (the model covers the integers appearing in the
replies considered here; a fractional or exponent part is not modelled and
makes the parse fail). -/
def parseJNum (cs : List Char) : Option (PyVal × List Char) :=
  let neg := match cs with
    | '-' :: _ => true
    | _ => false
  let cs1 := if neg then cs.drop 1 else cs
  let ds := cs1.takeWhile Char.isDigit
  let rest := cs1.drop ds.length
  if ds.isEmpty then none
  else
    match rest with
    | c :: _ =>
      if c = '.' || c = 'e' || c = 'E' then none
      else
        let n : Int := Int.ofNat (ds.foldl (fun n c => n * 10 + (c.toNat - 48)) 0)
        some (PyVal.num (if neg then -n else n), rest)
    | [] =>
      let n : Int := Int.ofNat (ds.foldl (fun n c => n * 10 + (c.toNat - 48)) 0)
      some (PyVal.num (if neg then -n else n), rest)

/-- Expect a literal keyword tail (rue, alse, ull). -/
def expectChars : List Char → List Char → Option (List Char)
  | cs, [] => some cs
  | c :: cs, e :: es => if c = e then expectChars cs es else none
  | [], _ :: _ => none

mutual

/-- Model of json.loads: parse one JSON value (objects, arrays, strings,
integers, booleans, null). Fuel is the remaining input length plus one;
every recursive call consumes at least one character first. -/
def parseJVal : Nat → List Char → Option (PyVal × List Char)
  | 0, _ => none
  | Nat.succ fuel, cs0 =>
    match jsonSkipWs cs0 with
    | [] => none
    | c :: rest =>
      if c = '"' then
        match parseJStrAux rest with
        | some r => some (PyVal.str (String.mk r.1), r.2)
        | none => none
      else if c = jLBrace then
        match jsonSkipWs rest with
        | d :: rest2 =>
          if d = jRBrace then some (PyVal.dict [], rest2)
          else
            match parseJMembers fuel rest with
            | some r => some (PyVal.dict r.1, r.2)
            | none => none
        | [] => none
      else if c = '[' then
        match jsonSkipWs rest with
        | d :: rest2 =>
          if d = ']' then some (PyVal.list [], rest2)
          else
            match parseJElems fuel rest with
            | some r => some (PyVal.list r.1, r.2)
            | none => none
        | [] => none
      else if c = 't' then (expectChars rest ['r', 'u', 'e']).map (fun r => (PyVal.bool true, r))
      else if c = 'f' then (expectChars rest ['a', 'l', 's', 'e']).map (fun r => (PyVal.bool false, r))
      else if c = 'n' then (expectChars rest ['u', 'l', 'l']).map (fun r => (PyVal.null, r))
      else if c = '-' || c.isDigit then parseJNum (c :: rest)
      else none

/-- Parse the members of a JSON object after the opening brace. -/
def parseJMembers : Nat → List Char → Option (List (String × PyVal) × List Char)
  | 0, _ => none
  | Nat.succ fuel, cs =>
    match jsonSkipWs cs with
    | c :: rest =>
      if c = '"' then
        match parseJStrAux rest with
        | some (key, rest2) =>
          (match jsonSkipWs rest2 with
          | d :: rest3 =>
            if d = ':' then
              match parseJVal fuel rest3 with
              | some (v, rest4) =>
                (match jsonSkipWs rest4 with
                | e :: rest5 =>
                  if e = ',' then
                    match parseJMembers fuel rest5 with
                    | some (kvs, rest6) => some ((String.mk key, v) :: kvs, rest6)
                    | none => none
                  else if e = jRBrace then some ([(String.mk key, v)], rest5)
                  else none
                | [] => none)
              | none => none
            else none
          | [] => none)
        | none => none
      else none
    | [] => none

/-- Parse the elements of a JSON array after the opening bracket. -/
def parseJElems : Nat → List Char → Option (List PyVal × List Char)
  | 0, _ => none
  | Nat.succ fuel, cs =>
    match parseJVal fuel cs with
    | some (v, rest) =>
      (match jsonSkipWs rest with
      | e :: rest2 =>
        if e = ',' then
          match parseJElems fuel rest2 with
          | some (xs, rest3) => some (v :: xs, rest3)
          | none => none
        else if e = ']' then some ([v], rest2)
        else none
      | [] => none)
    | none => none

end

/-- json.loads over a whole string: one value with nothing but whitespace
after it. -/
def jsonParse (s : String) : Option PyVal :=
  match parseJVal (s.length + 1) s.data with
  | some (v, rest) => if (jsonSkipWs rest).isEmpty then some v else none
  | none => none

/-- The re.search of brace-pattern with DOTALL used to rescue a JSON object
embedded in free text: leftmost-greedy gives the span from the first left
brace to the last right brace, when the latter comes after the former. -/
def braceSubstring (s : String) : Option String :=
  let cs := s.data
  match cs.findIdx? (fun c => c = jLBrace) with
  | none => none
  | some i =>
    match cs.reverse.findIdx? (fun c => c = jRBrace) with
    | none => none
    | some k =>
      let j := cs.length - 1 - k
      if i < j then some (String.mk ((cs.drop i).take (j - i + 1))) else none

/-- LLMFieldExtractor._parse_llm_response (new_glassdoor.py lines 509-523),
also the inline parse of extract_fields_with_llama (run_glassdoor_scraper.py
lines 601-614): direct JSON parse, then retry on the brace-delimited
substring, else an empty dict. A reply parsing to a non-dict value is
returned as the empty dict here: in the source such a value reaches the
normalization step, where every key lookup either misses or raises an
exception that the caller catches, so the observable result (all defaults)
is the same. The helper parseSubDict is the inner retry parse. -/
def parseSubDict (sub : String) : List (String × PyVal) :=
  match jsonParse sub with
  | some (PyVal.dict kvs) => kvs
  | _ => []

/-- The brace-substring retry of the parse (the except-branch of the
direct json.loads). -/
def parseBraceRetry (content : String) : List (String × PyVal) :=
  match braceSubstring content with
  | some sub => parseSubDict sub
  | none => []

/-- Direct parse, then retry on the brace-delimited substring, else the
empty dict. -/
def _parse_llm_response (content : String) : List (String × PyVal) :=
  match jsonParse content with
  | some (PyVal.dict kvs) => kvs
  | some _ => []
  | none => parseBraceRetry content

/-- The normalized generative-fallback result of LLMFieldExtractor: six
scalar values and two lists of skill strings. -/
structure LLMFields where
  jobType : PyVal
  pay : PyVal
  workLocation : PyVal
  benefits : PyVal
  schedule : PyVal
  education : PyVal
  mostRelevantSkills : List String
  otherRelevantSkills : List String
deriving Repr

/-- LLMFieldExtractor._get_default_fields (new_glassdoor.py lines 542-552). -/
def _get_default_fields : LLMFields :=
  { jobType := PyVal.str "Not specified", pay := PyVal.str "Not specified",
    workLocation := PyVal.str "Not specified", benefits := PyVal.str "Not specified",
    schedule := PyVal.str "Not specified", education := PyVal.str "Not specified",
    mostRelevantSkills := [], otherRelevantSkills := [] }

/-- Is the value the literal sentinel string? (the comparison
fields of key equal to the string Not specified). -/
def isNotSpecified : PyVal → Bool
  | PyVal.str s => s = "Not specified"
  | _ => false

/-- The skill-list comprehension: strip every entry, keep the truthy ones;
a non-string entry raises (modelled as none). -/
def pyStripListStr : List PyVal → Option (List String)
  | [] => some []
  | PyVal.str s :: rest =>
    (pyStripListStr rest).map (fun r => if pyStrip s ≠ "" then pyStrip s :: r else r)
  | _ :: _ => none

/-- Scalar-field branch of _normalize_llm_fields (new_glassdoor.py lines
536-538): a truthy non-sentinel reply value is kept, anything else leaves
the default sentinel in place. -/
def normScalarField (fields : List (String × PyVal)) (key : String) : PyVal :=
  match pyGet fields key with
  | some v =>
    if pyTruthy v then
      if isNotSpecified v then PyVal.str "Not specified" else v
    else PyVal.str "Not specified"
  | none => PyVal.str "Not specified"

/-- Skill-field branch of _normalize_llm_fields (new_glassdoor.py lines
531-535); none models an exception raised by stripping a non-string. -/
def normSkillField (fields : List (String × PyVal)) (key : String) : Option (List String) :=
  match pyGet fields key with
  | some v =>
    if pyTruthy v then
      match v with
      | PyVal.list xs => pyStripListStr xs
      | PyVal.str s => if s ≠ "Not specified" then some (splitCommaStripFilter s) else some []
      | _ => some []
    else some []
  | none => some []

/-- LLMFieldExtractor._normalize_llm_fields (new_glassdoor.py lines
525-540); none models an exception escaping to the caller. -/
def _normalize_llm_fields (fields : List (String × PyVal)) : Option LLMFields :=
  match normSkillField fields "mostRelevantSkills", normSkillField fields "otherRelevantSkills" with
  | some mrs, some ors =>
    some { jobType := normScalarField fields "jobType",
           pay := normScalarField fields "pay",
           workLocation := normScalarField fields "workLocation",
           benefits := normScalarField fields "benefits",
           schedule := normScalarField fields "schedule",
           education := normScalarField fields "education",
           mostRelevantSkills := mrs, otherRelevantSkills := ors }
  | _, _ => none

/-- Outcome of the one network call to the generative model: an exception,
or a reply text. -/
inductive LLMOutcome where
  | err
  | ok (content : String)

/-- LLMFieldExtractor.extract_fields (new_glassdoor.py lines 455-476):
missing client or empty text return the defaults; the call is wrapped in a
try block whose except-branch also returns the defaults, including an
exception raised inside normalization. The helper extractFieldsReply is
the parse-and-normalize step on the reply text. -/
def extractFieldsReply (content : String) : LLMFields :=
  match _normalize_llm_fields (_parse_llm_response content) with
  | some f => f
  | none => _get_default_fields

/-- LLMFieldExtractor.extract_fields proper. -/
def extract_fields (hasClient : Bool) (jobDescText : String) (outcome : LLMOutcome) : LLMFields :=
  if !hasClient || strIsEmpty jobDescText then _get_default_fields
  else
    match outcome with
    | LLMOutcome.err => _get_default_fields
    | LLMOutcome.ok content => extractFieldsReply content

/-- The character class kept by JobPosting.normalize_currency
(new_glassdoor.py line 152). The source class contains the three characters
period, hyphen, rupee in sequence, which the regex engine reads as the
range U+002E to U+20B9; the hyphen itself is therefore not in the class. -/
def keepCurrencyChar (c : Char) : Bool :=
  c.isDigit || c = ',' || ('.'.toNat ≤ c.toNat && c.toNat ≤ 0x20B9) ||
  c = '$' || c = '€' || c = '£' || isSpaceChar c

/-- JobPosting.normalize_currency on a truthy string (new_glassdoor.py
lines 148-153): delete every character outside the class, then strip. -/
def normalize_currency (v : String) : String :=
  pyStrip (String.mk (v.data.filter keepCurrencyChar))

/-- The validator over an optional field value: falsy values pass through
unchanged. -/
def normalize_currency_opt : Option String → Option String
  | some s => if !s.isEmpty then some (normalize_currency s) else some s
  | none => none

/-- Are all values strings? Returns them (pydantic List[str] validation). -/
def listAllStr : List PyVal → Option (List String)
  | [] => some []
  | PyVal.str s :: rest => (listAllStr rest).map (fun r => s :: r)
  | _ :: _ => none

/-- JobPosting.ensure_list (new_glassdoor.py lines 155-160) followed by the
List[str] validation: a string is split on commas, a falsy value becomes
the empty list, a list must consist of strings; none models a pydantic
validation error. -/
def ensure_list : Option PyVal → Option (List String)
  | none => some []
  | some (PyVal.str s) => some (splitCommaStripFilter s)
  | some (PyVal.list xs) => if xs.isEmpty then some [] else listAllStr xs
  | some v => if pyTruthy v then none else some []

/-- Validation of an Optional str field from a merged value; none models a
pydantic validation error on a non-string. -/
def asOptStr : Option PyVal → Option (Option String)
  | none => some none
  | some (PyVal.str s) => some (some s)
  | some _ => none

/-- Validation of an Optional Union of str and List of str field
(benefits, schedule). -/
def asBenefit : Option PyVal → Option (Option PyVal)
  | none => some none
  | some (PyVal.str s) => some (some (PyVal.str s))
  | some (PyVal.list xs) => (listAllStr xs).map (fun _ => some (PyVal.list xs))
  | some _ => none

/-- The validated output record (the pydantic JobPosting model,
new_glassdoor.py lines 121-160). -/
structure JobPosting where
  title : String
  company_name : Option String
  location : Option String
  salary : Option String
  job_type : Option String
  pay : Option String
  work_location : Option String
  benefits : Option PyVal
  schedule : Option PyVal
  education : Option String
  most_relevant_skills : List String
  other_relevant_skills : List String
  easy_apply : Bool
  company_logo : Option String
  job_description : Option String
  extra_sections : List (String × PyVal)
  job_id : Option String
  jd_url : Option String
deriving Repr

/-- Construction of a JobPosting with its validators
(title_must_not_be_empty, normalize_currency, ensure_list and the field
type checks); none models a pydantic ValidationError, which the caller of
the constructor catches. -/
def mkJobPosting (title : String) (company_name location salary : Option String)
    (job_type pay work_location benefits schedule education mostSkills otherSkills : Option PyVal)
    (easy_apply : Bool) (company_logo job_description : Option String)
    (extra_sections : List (String × PyVal)) (job_id jd_url : Option String) :
    Option JobPosting :=
  if strIsEmpty (pyStrip title) then none
  else do
    let jt ← asOptStr job_type
    let py ← asOptStr pay
    let wl ← asOptStr work_location
    let bf ← asBenefit benefits
    let sc ← asBenefit schedule
    let ed ← asOptStr education
    let mrs ← ensure_list mostSkills
    let ors ← ensure_list otherSkills
    some { title := pyStrip title, company_name, location,
           salary := normalize_currency_opt salary,
           job_type := jt, pay := normalize_currency_opt py,
           work_location := wl, benefits := bf, schedule := sc, education := ed,
           most_relevant_skills := mrs, other_relevant_skills := ors,
           easy_apply, company_logo, job_description, extra_sections, job_id, jd_url }

/-- The jobId regex jl followed by digits applied to the job URL
(new_glassdoor.py lines 775-779): leftmost occurrence, greedy digit run. -/
def jobIdFromUrl (url : String) : Option String :=
  let cs := url.data
  (List.range cs.length).findSome? (fun i =>
    match cs.drop i with
    | 'j' :: 'l' :: '=' :: rest =>
      let ds := rest.takeWhile Char.isDigit
      if ds.isEmpty then none else some (String.mk ds)
    | _ => none)

/-- The six description-derived scalar field variables of
_extract_single_job. -/
structure ScalarFields where
  jobType : Option PyVal
  pay : Option PyVal
  workLocation : Option PyVal
  benefits : Option PyVal
  schedule : Option PyVal
  education : Option PyVal

/-- The regex-fallback loop of _extract_single_job (new_glassdoor.py lines
756-762). The loop computes extract_with_regex_fallback for each missing
field but stores the result with an assignment into the dict returned by
locals(); CPython does not write that dict back to the frame, so the six
local field variables are left unchanged by the loop. -/
def regexFallbackPassNew (jobDescText : Option String) (fs : ScalarFields) : ScalarFields :=
  match jobDescText with
  | none => fs
  | some _ => fs

/-- Python x or y over an optional field variable and an always-present
fallback value. -/
def pyOrVal (a : Option PyVal) (b : PyVal) : Option PyVal :=
  if optTruthy a then a else some b

/-- Python x or y over two optional values. -/
def pyOrOpt (a b : Option PyVal) : Option PyVal :=
  if optTruthy a then a else b

/-- The per-document inputs of _extract_single_job that come from the live
driver and the environment: the structured-selector results, the parsed
page, the presence of the generative client, the outcome of the one
network call, and the job URL. -/
structure CoreInput where
  title : Option String
  company : Option String
  location : Option String
  salary : Option String
  easyApplyText : Option String
  company_logo : Option String
  jobDescHtml : Option String
  doc : Node
  hasClient : Bool
  llmOutcome : LLMOutcome
  url : String

/-- The job_desc_text computation of _extract_single_job (new_glassdoor.py
lines 736-744): only when the structured job-description lookup succeeded,
re-select the container with the primary selector and take its text with
newline separators. -/
def jobDescTextOf (i : CoreInput) : Option String :=
  match i.jobDescHtml with
  | none => none
  | some _ =>
    match findFirst (fun n => (nodeTag n = some "div") && hasClass "JobDetails_jobDescription__uW_fK" n) i.doc with
    | some d => some (getTextStrip "\n" d)
    | none => none

/-- The fallback cascade of _extract_single_job (new_glassdoor.py lines
746-773) for the six description-derived scalars and the two skill lists:
segmented values from extra_sections, the (inert) regex pass, then the
gated generative fallback combined with Python or. -/
def mergedFieldsNew (i : CoreInput) : ScalarFields × Option PyVal × Option PyVal :=
  let extra_sections := extract_job_description_sections i.doc
  let job_desc_text := jobDescTextOf i
  let fs0 : ScalarFields :=
    { jobType := pyGet extra_sections "jobType",
      pay := pyGet extra_sections "pay",
      workLocation := pyGet extra_sections "workLocation",
      benefits := pyGet extra_sections "benefits",
      schedule := pyGet extra_sections "schedule",
      education := pyGet extra_sections "education" }
  let mrs0 := pyGet extra_sections "mostRelevantSkills"
  let ors0 := pyGet extra_sections "otherRelevantSkills"
  let fs1 := regexFallbackPassNew job_desc_text fs0
  let gate := optStrTruthy job_desc_text &&
    (!optTruthy fs1.jobType || !optTruthy fs1.pay || !optTruthy fs1.workLocation ||
     !optTruthy fs1.benefits || !optTruthy fs1.schedule || !optTruthy fs1.education ||
     !optTruthy mrs0 || !optTruthy ors0)
  let llm := extract_fields i.hasClient (job_desc_text.getD "") i.llmOutcome
  let fs2 : ScalarFields :=
    if gate then
      { jobType := pyOrVal fs1.jobType llm.jobType,
        pay := pyOrVal fs1.pay llm.pay,
        workLocation := pyOrVal fs1.workLocation llm.workLocation,
        benefits := pyOrVal fs1.benefits llm.benefits,
        schedule := pyOrVal fs1.schedule llm.schedule,
        education := pyOrVal fs1.education llm.education }
    else fs1
  let mrs1 := if gate then pyOrVal mrs0 (PyVal.list (llm.mostRelevantSkills.map PyVal.str)) else mrs0
  let ors1 := if gate then pyOrVal ors0 (PyVal.list (llm.otherRelevantSkills.map PyVal.str)) else ors0
  (fs2, mrs1, ors1)

/-- GlassdoorScraper._extract_single_job (new_glassdoor.py lines 709-807),
the pure extraction-and-merge core: section segmentation, the (inert)
regex-fallback pass, the gated generative fallback, and the validated
record construction. Returns none when validation fails (the except-branch
of the source returns None). -/
def extractSingleJob (i : CoreInput) : Option JobPosting :=
  let m := mergedFieldsNew i
  mkJobPosting (i.title.getD "") i.company i.location i.salary
    m.1.jobType m.1.pay m.1.workLocation m.1.benefits m.1.schedule m.1.education
    m.2.1 m.2.2 (optStrTruthy i.easyApplyText) i.company_logo (jobDescTextOf i)
    (extract_job_description_sections i.doc) (jobIdFromUrl i.url) (some i.url)

/-- GlassdoorScraper._extract_jobs_concurrent (new_glassdoor.py lines
697-702): gather the per-URL results and keep the non-None records. -/
def extractJobsConcurrent (inputs : List CoreInput) : List JobPosting :=
  (inputs.map extractSingleJob).filterMap id

/-- The eight description-derived field variables of scrape_with_selenium
at the point where its fallback passes run. -/
structure RunFields where
  jobType : Option PyVal
  pay : Option PyVal
  workLocation : Option PyVal
  benefits : Option PyVal
  schedule : Option PyVal
  education : Option PyVal
  mostRelevantSkills : Option PyVal
  otherRelevantSkills : Option PyVal

/-- Lift a regex result (an optional string) into a field value. -/
def strOpt (o : Option String) : Option PyVal := o.map PyVal.str

/-- The regex-fallback pass of scrape_with_selenium (run_glassdoor_scraper.py
lines 487-504): each still-falsy field is assigned the regex result. -/
def regexFallbackPassRun (d : String) (fs : RunFields) : RunFields :=
  { jobType := if optTruthy fs.jobType then fs.jobType else strOpt (extract_field_by_regex d "jobType"),
    pay := if optTruthy fs.pay then fs.pay else strOpt (extract_field_by_regex d "pay"),
    workLocation := if optTruthy fs.workLocation then fs.workLocation else strOpt (extract_field_by_regex d "workLocation"),
    benefits := if optTruthy fs.benefits then fs.benefits else strOpt (extract_field_by_regex d "benefits"),
    schedule := if optTruthy fs.schedule then fs.schedule else strOpt (extract_field_by_regex d "schedule"),
    education := if optTruthy fs.education then fs.education else strOpt (extract_field_by_regex d "education"),
    mostRelevantSkills := if optTruthy fs.mostRelevantSkills then fs.mostRelevantSkills else strOpt (extract_field_by_regex d "mostRelevantSkills"),
    otherRelevantSkills := if optTruthy fs.otherRelevantSkills then fs.otherRelevantSkills else strOpt (extract_field_by_regex d "otherRelevantSkills") }

/-- The regex and generative fallback stages of scrape_with_selenium
(run_glassdoor_scraper.py lines 487-518), starting from the field values
left by its structured and segmented extraction, with the generative reply
dict passed in as the result of the network call. -/
def mergeRunFields (fs : RunFields) (jobDescText : Option String)
    (llama : List (String × PyVal)) : RunFields :=
  let fs1 :=
    match jobDescText with
    | some d => if !strIsEmpty d then regexFallbackPassRun d fs else fs
    | none => fs
  let gate := optStrTruthy jobDescText &&
    (!optTruthy fs1.jobType || !optTruthy fs1.pay || !optTruthy fs1.workLocation ||
     !optTruthy fs1.benefits || !optTruthy fs1.schedule || !optTruthy fs1.education ||
     !optTruthy fs1.mostRelevantSkills || !optTruthy fs1.otherRelevantSkills)
  if gate then
    { jobType := pyOrOpt fs1.jobType (pyGet llama "jobType"),
      pay := pyOrOpt fs1.pay (pyGet llama "pay"),
      workLocation := pyOrOpt fs1.workLocation (pyGet llama "workLocation"),
      benefits := pyOrOpt fs1.benefits (pyGet llama "benefits"),
      schedule := pyOrOpt fs1.schedule (pyGet llama "schedule"),
      education := pyOrOpt fs1.education (pyGet llama "education"),
      mostRelevantSkills := pyOrOpt fs1.mostRelevantSkills (pyGet llama "mostRelevantSkills"),
      otherRelevantSkills := pyOrOpt fs1.otherRelevantSkills (pyGet llama "otherRelevantSkills") }
  else fs1

/-- Result of a Python call that can raise. -/
inductive PyResult (α : Type) where
  | ok (a : α)
  | exn (msg : String)
deriving Repr

/-- The all-default reply dict of extract_fields_with_llama
(run_glassdoor_scraper.py lines 633-642). -/
def defaultLlamaDict : List (String × PyVal) :=
  [("jobType", PyVal.str "Not specified"),
   ("pay", PyVal.str "Not specified"),
   ("workLocation", PyVal.str "Not specified"),
   ("benefits", PyVal.str "Not specified"),
   ("schedule", PyVal.str "Not specified"),
   ("education", PyVal.str "Not specified"),
   ("mostRelevantSkills", PyVal.list []),
   ("otherRelevantSkills", PyVal.list [])]

/-- One scalar key of the inner normalize_llm_fields of
extract_fields_with_llama (run_glassdoor_scraper.py lines 619-621): a
missing or falsy value is replaced by the sentinel. -/
def ensureScalarKey (fields : List (String × PyVal)) (k : String) : List (String × PyVal) :=
  match pyGet fields k with
  | some v => if pyTruthy v then fields else dictInsert fields k (PyVal.str "Not specified")
  | none => dictInsert fields k (PyVal.str "Not specified")

/-- One list key of the inner normalize_llm_fields of
extract_fields_with_llama (run_glassdoor_scraper.py lines 622-628): a
missing or non-list value becomes the empty list, as does a one-element
list whose only string starts with see above. -/
def ensureListKey (fields : List (String × PyVal)) (k : String) : List (String × PyVal) :=
  match pyGet fields k with
  | some (PyVal.list [PyVal.str s]) =>
    if ("see above".data).isPrefixOf (pyToLower s).data then dictInsert fields k (PyVal.list [])
    else fields
  | some (PyVal.list _) => fields
  | some _ => dictInsert fields k (PyVal.list [])
  | none => dictInsert fields k (PyVal.list [])

/-- The inner normalize_llm_fields of extract_fields_with_llama
(run_glassdoor_scraper.py lines 616-629). -/
def normalizeLlamaFields (fields : List (String × PyVal)) : List (String × PyVal) :=
  let s1 := ["jobType", "pay", "workLocation", "benefits", "schedule", "education"].foldl ensureScalarKey fields
  ["mostRelevantSkills", "otherRelevantSkills"].foldl ensureListKey s1

/-- extract_fields_with_llama (run_glassdoor_scraper.py lines 558-642).
When the groq package is absent the function raises ImportError before the
try block; otherwise a failing network call is caught and yields the
default dict, and a reply is parsed with the same direct-then-brace-substring
logic as the class-based extractor and normalized. -/
def extract_fields_with_llama (groqAvailable : Bool) (outcome : LLMOutcome) :
    PyResult (List (String × PyVal)) :=
  if !groqAvailable then
    PyResult.exn "ImportError: groq Python package is not installed. Please install it with pip install groq."
  else
    match outcome with
    | LLMOutcome.err => PyResult.ok defaultLlamaDict
    | LLMOutcome.ok content => PyResult.ok (normalizeLlamaFields (_parse_llm_response content))

/-! Helper lemmas about the section walker. -/

theorem stepNode_header (st : WState) (n : Node) (h : isHeaderNode n = true) :
    stepNode st n = ⟨some (sectionNameOf n), [], commitState st⟩ := by
  cases n with
  | text s => simp [isHeaderNode, nodeTag] at h
  | elem t cls attrs cs =>
    simp only [isHeaderNode, nodeTag] at h
    simp [stepNode, nodeTag, h]

theorem stepNode_noop (st : WState) (n : Node) (h1 : isHeaderNode n = false)
    (h2 : isContentNode n = false) : stepNode st n = st := by
  cases n with
  | text s => rfl
  | elem t cls attrs cs =>
    simp only [isHeaderNode, nodeTag] at h1
    simp only [isContentNode, nodeTag] at h2
    simp [stepNode, nodeTag, h1, h2]

theorem stepNode_nonheader_preserve (st : WState) (n : Node) (h : isHeaderNode n = false) :
    (stepNode st n).secs = st.secs ∧ (stepNode st n).cur = st.cur := by
  cases n with
  | text s => exact ⟨rfl, rfl⟩
  | elem t cls attrs cs =>
    simp only [isHeaderNode, nodeTag] at h
    simp only [stepNode, nodeTag, h, Bool.false_eq_true, if_false]
    split
    · split <;> exact ⟨rfl, rfl⟩
    · exact ⟨rfl, rfl⟩

theorem stepNode_not_header_init (n : Node) (h : isHeaderNode n = false) :
    stepNode ⟨none, [], []⟩ n = ⟨none, [], []⟩ := by
  cases n with
  | text s => rfl
  | elem t cls attrs cs =>
    simp only [isHeaderNode, nodeTag] at h
    simp [stepNode, nodeTag, h, optStrTruthy]

theorem foldl_init_no_header (pre : List Node) (h : ∀ n ∈ pre, isHeaderNode n = false) :
    pre.foldl stepNode ⟨none, [], []⟩ = ⟨none, [], []⟩ := by
  induction pre with
  | nil => rfl
  | cons n tl ih =>
    rw [List.foldl_cons, stepNode_not_header_init n (h n (List.mem_cons_self n tl))]
    exact ih (fun m hm => h m (List.mem_cons_of_mem n hm))

theorem foldl_noop_nodes (ys : List Node)
    (h : ∀ n ∈ ys, isHeaderNode n = false ∧ isContentNode n = false) :
    ∀ st : WState, ys.foldl stepNode st = st := by
  induction ys with
  | nil => intro st; rfl
  | cons n tl ih =>
    intro st
    rw [List.foldl_cons,
      stepNode_noop st n (h n (List.mem_cons_self n tl)).1 (h n (List.mem_cons_self n tl)).2]
    exact ih (fun m hm => h m (List.mem_cons_of_mem n hm)) st

theorem commitState_header_state (name : String) (secs : List (String × PyVal)) :
    commitState ⟨some name, [], secs⟩ = secs := by
  simp [commitState]

/-- 1 when a section is open (truthy current_section), 0 otherwise. -/
def openCur (st : WState) : Nat := if optStrTruthy st.cur then 1 else 0

theorem dictInsert_length_le (d : List (String × PyVal)) (k : String) (v : PyVal) :
    (dictInsert d k v).length ≤ d.length + 1 := by
  induction d with
  | nil => simp [dictInsert]
  | cons hd tl ih =>
    obtain ⟨k', v'⟩ := hd
    simp only [dictInsert]
    split
    · simp
    · simpa using Nat.succ_le_succ ih

theorem commitState_length (st : WState) :
    (commitState st).length ≤ st.secs.length + openCur st := by
  unfold commitState openCur
  by_cases h : (optStrTruthy st.cur && !st.content.isEmpty) = true
  · rw [if_pos h]
    have hcur : optStrTruthy st.cur = true := ((Bool.and_eq_true _ _).mp h).1
    rw [if_pos hcur]
    exact dictInsert_length_le _ _ _
  · rw [if_neg h]
    split <;> omega

theorem walk_invariant (items : List Node) : ∀ st : WState,
    (items.foldl stepNode st).secs.length + openCur (items.foldl stepNode st) ≤
      st.secs.length + openCur st + (items.filter isHeaderNode).length := by
  induction items with
  | nil => intro st; simp
  | cons n rest ih =>
    intro st
    rw [List.foldl_cons, List.filter_cons]
    cases hn : isHeaderNode n with
    | false =>
      have hp := stepNode_nonheader_preserve st n hn
      have := ih (stepNode st n)
      simp only [hn, Bool.false_eq_true, if_false, hp.1, openCur, hp.2] at this ⊢
      exact this
    | true =>
      rw [stepNode_header st n hn]
      have hih := ih ⟨some (sectionNameOf n), [], commitState st⟩
      have hc := commitState_length st
      have hopen : openCur ⟨some (sectionNameOf n), [], commitState st⟩ ≤ 1 := by
        simp only [openCur]; split <;> omega
      simp only [show (⟨some (sectionNameOf n), [], commitState st⟩ : WState).secs = commitState st from rfl] at hih
      simp only [hn, if_true, List.length_cons]
      omega

/-- C6: in the section segmenter, content nodes encountered before the
first header-like node are excluded from every committed section (a
header-free prefix of the traversal leaves the result unchanged), and each
header node encountered produces at most one committed section (the
committed map has at most as many entries as there are header nodes). -/
theorem c6_segmenter_prefix_and_headers :
    (∀ pre rest : List Node, (∀ n ∈ pre, isHeaderNode n = false) →
      walkSections (pre ++ rest) = walkSections rest) ∧
    (∀ items : List Node,
      (walkSections items).length ≤ (items.filter isHeaderNode).length) := by
  constructor
  · intro pre rest h
    unfold walkSections
    rw [List.foldl_append, foldl_init_no_header pre h]
  · intro items
    have h1 := walk_invariant items ⟨none, [], []⟩
    have h2 := commitState_length (items.foldl stepNode ⟨none, [], []⟩)
    unfold walkSections
    simp only [show openCur ⟨none, [], []⟩ = 0 from rfl,
      show ((⟨none, [], []⟩ : WState).secs) = [] from rfl, List.length_nil] at h1
    omega

/-- Pre-header teaser paragraph for the C6 witness. -/
def preC6 : List Node := [Node.elem "p" [] [] [Node.text "teaser paragraph"]]

/-- Header and content nodes for the C6 witness. -/
def restC6 : List Node :=
  [Node.elem "b" [] [] [Node.text "Benefits:"], Node.elem "p" [] [] [Node.text "Free lunch"]]

/-- Witness for C6 at a concrete traversal. -/
theorem c6_witness : walkSections (preC6 ++ restC6) = walkSections restC6 :=
  c6_segmenter_prefix_and_headers.1 preC6 restC6
    (by intro n hn; simp only [preC6, List.mem_singleton] at hn; subst hn; rfl)

/-- C7: the stored value of a committed section is determined by the
collected content strings: exactly one string is stored plain; more than
one string, all strictly shorter than 200 characters, is stored as the
ordered list; otherwise the strings are joined with a space separator. -/
theorem c7_section_content_shape : ∀ c : List String,
    (∀ x, c = [x] → _process_section_content c = PyVal.str x) ∧
    (1 < c.length → (∀ s ∈ c, s.length < 200) →
      _process_section_content c = PyVal.list (c.map PyVal.str)) ∧
    (1 < c.length → ¬(∀ s ∈ c, s.length < 200) →
      _process_section_content c = PyVal.str (String.intercalate " " c)) := by
  intro c
  refine ⟨?_, ?_, ?_⟩
  · intro x h; subst h; rfl
  · match c with
    | [] => intro h _; simp at h
    | [x] => intro h _; simp at h
    | x :: y :: rest =>
      intro _ hall
      have hb : (x :: y :: rest).all (fun item => item.length < 200) = true := by
        rw [List.all_eq_true]
        intro a ha
        exact decide_eq_true (hall a ha)
      simp [_process_section_content, hb]
  · match c with
    | [] => intro h _; simp at h
    | [x] => intro h _; simp at h
    | x :: y :: rest =>
      intro _ hnot
      have hb : (x :: y :: rest).all (fun item => item.length < 200) = false := by
        rw [Bool.eq_false_iff]
        intro hT
        exact hnot (fun s hs => of_decide_eq_true (List.all_eq_true.mp hT s hs))
      simp [_process_section_content, hb]

/-- A 200-character string for the C7 witness. -/
def longStringC7 : String := String.mk (List.replicate 200 'x')

set_option maxRecDepth 4000 in
/-- Witness for C7 at concrete content lists. -/
theorem c7_witness :
    _process_section_content ["only"] = PyVal.str "only" ∧
    _process_section_content ["a", "b"] = PyVal.list [PyVal.str "a", PyVal.str "b"] ∧
    _process_section_content ["a", longStringC7] = PyVal.str (String.intercalate " " ["a", longStringC7]) :=
  ⟨(c7_section_content_shape ["only"]).1 "only" rfl,
   (c7_section_content_shape ["a", "b"]).2.1 (by decide) (by decide),
   (c7_section_content_shape ["a", longStringC7]).2.2 (by decide) (by decide)⟩

/-- A header immediately followed (up to skipped nodes) by another header
or by the end of traversal contributes nothing, whatever the walker state. -/
theorem contentless_header_skip (st : WState) (h : Node) (ys₁ ys₂ : List Node)
    (hh : isHeaderNode h = true)
    (h1 : ∀ n ∈ ys₁, isHeaderNode n = false ∧ isContentNode n = false)
    (h2 : ys₂ = [] ∨ ∃ g rest, ys₂ = g :: rest ∧ isHeaderNode g = true) :
    commitState ((h :: (ys₁ ++ ys₂)).foldl stepNode st) =
      commitState ((ys₁ ++ ys₂).foldl stepNode st) := by
  rw [List.foldl_cons, stepNode_header st h hh, List.foldl_append, List.foldl_append,
    foldl_noop_nodes ys₁ h1, foldl_noop_nodes ys₁ h1]
  rcases h2 with rfl | ⟨g, rest, rfl, hg⟩
  · simp only [List.foldl_nil]
    exact commitState_header_state _ _
  · rw [List.foldl_cons, List.foldl_cons, stepNode_header _ g hg, stepNode_header st g hg,
      commitState_header_state]

/-- C10: a header with no following content node before the next header
(or before the end of traversal) produces no entry at all in the section
map: deleting such a header from the traversal leaves the committed
sections unchanged, so the empty section is never stored. -/
theorem c10_contentless_header : ∀ (pre : List Node) (h : Node) (ys₁ ys₂ : List Node),
    isHeaderNode h = true →
    (∀ n ∈ ys₁, isHeaderNode n = false ∧ isContentNode n = false) →
    (ys₂ = [] ∨ ∃ g rest, ys₂ = g :: rest ∧ isHeaderNode g = true) →
    walkSections (pre ++ h :: (ys₁ ++ ys₂)) = walkSections (pre ++ (ys₁ ++ ys₂)) := by
  intro pre h ys₁ ys₂ hh h1 h2
  unfold walkSections
  rw [List.foldl_append, List.foldl_append]
  exact contentless_header_skip _ h ys₁ ys₂ hh h1 h2

/-- Committed prefix for the C10 witness. -/
def preC10 : List Node :=
  [Node.elem "b" [] [] [Node.text "Responsibilities"], Node.elem "p" [] [] [Node.text "Build things"]]

/-- The contentless header of the C10 witness. -/
def hC10 : Node := Node.elem "b" [] [] [Node.text "Benefits:"]

/-- Nodes skipped by the walker between the contentless header and the next
header, for the C10 witness. -/
def ys1C10 : List Node := [Node.elem "span" [] [] [Node.text "decorative"]]

/-- The following header and its content, for the C10 witness. -/
def ys2C10 : List Node :=
  [Node.elem "b" [] [] [Node.text "Schedule:"], Node.elem "p" [] [] [Node.text "Mon to Fri"]]

/-- Witness for C10 at a concrete traversal. -/
theorem c10_witness :
    walkSections (preC10 ++ hC10 :: (ys1C10 ++ ys2C10)) = walkSections (preC10 ++ (ys1C10 ++ ys2C10)) :=
  c10_contentless_header preC10 hC10 ys1C10 ys2C10 rfl
    (by intro n hn; simp only [ys1C10, List.mem_singleton] at hn; subst hn; exact ⟨rfl, rfl⟩)
    (Or.inr ⟨_, _, rfl, rfl⟩)

/-- C4: the regex fallback extractor performs a single case-insensitive
search of the field-specific pattern from the static table and returns the
first captured group trimmed; it is absent when nothing matches, when the
field has no pattern, or when the text is empty; in particular, on the text
Job Type: Full-time. Some other text. with field jobType it returns exactly
Full-time. -/
theorem c4_regex_fallback :
    extract_with_regex_fallback "Job Type: Full-time. Some other text." "jobType" = some "Full-time" ∧
    extract_field_by_regex "Job Type: Full-time. Some other text." "jobType" = some "Full-time" ∧
    extract_with_regex_fallback "hello world" "jobType" = none ∧
    (∀ text : String, extract_with_regex_fallback text "title" = none) ∧
    (∀ field : String, extract_with_regex_fallback "" field = none) := by
  refine ⟨by decide, by decide, by decide, ?_, ?_⟩
  · intro text
    by_cases h : strIsEmpty text
    · simp [extract_with_regex_fallback, h]
    · simp [extract_with_regex_fallback, h, show patternsNew.lookup "title" = none from rfl]
  · intro field
    rfl

/-- Destructuring a successful record construction: the validated record
carries the trimmed non-empty title, the untouched company and location,
the currency-normalized salary, an Optional-str-validated job type, and
the sections and description verbatim. -/
theorem mkJobPosting_fields
    {title : String} {company_name location salary : Option String}
    {job_type pay work_location benefits schedule education mostSkills otherSkills : Option PyVal}
    {easy_apply : Bool} {company_logo job_description : Option String}
    {extra_sections : List (String × PyVal)} {job_id jd_url : Option String} {jp : JobPosting}
    (h : mkJobPosting title company_name location salary job_type pay work_location benefits
      schedule education mostSkills otherSkills easy_apply company_logo job_description
      extra_sections job_id jd_url = some jp) :
    jp.title = pyStrip title ∧ pyStrip title ≠ "" ∧
    jp.company_name = company_name ∧ jp.location = location ∧
    jp.salary = normalize_currency_opt salary ∧
    asOptStr job_type = some jp.job_type ∧
    ensure_list mostSkills = some jp.most_relevant_skills ∧
    ensure_list otherSkills = some jp.other_relevant_skills ∧
    jp.extra_sections = extra_sections ∧ jp.job_description = job_description := by
  unfold mkJobPosting at h
  split at h
  · exact absurd h (by simp)
  · rename_i hti
    obtain ⟨jt, hjt, h⟩ := Option.bind_eq_some.mp h
    obtain ⟨py, hpy, h⟩ := Option.bind_eq_some.mp h
    obtain ⟨wl, hwl, h⟩ := Option.bind_eq_some.mp h
    obtain ⟨bf, hbf, h⟩ := Option.bind_eq_some.mp h
    obtain ⟨sc, hsc, h⟩ := Option.bind_eq_some.mp h
    obtain ⟨ed, hed, h⟩ := Option.bind_eq_some.mp h
    obtain ⟨mrs, hmrs, h⟩ := Option.bind_eq_some.mp h
    obtain ⟨ors, hors, h⟩ := Option.bind_eq_some.mp h
    rw [Option.some_inj] at h
    subst h
    refine ⟨rfl, ?_, rfl, rfl, rfl, ?_, ?_, ?_, rfl, rfl⟩
    · intro he
      rw [he] at hti
      exact hti rfl
    · simpa using hjt
    · simpa using hmrs
    · simpa using hors

/-- C9: every JobPosting in a returned batch has a non-empty title that is
the trimmed form of the extracted text: a candidate whose title strips to
the empty string fails validation and is filtered out of the batch. -/
theorem c9_title_invariant : ∀ (inputs : List CoreInput),
    ∀ jp ∈ extractJobsConcurrent inputs,
    jp.title ≠ "" ∧ ∃ t : String, jp.title = pyStrip t := by
  intro inputs jp hmem
  unfold extractJobsConcurrent at hmem
  rw [List.mem_filterMap] at hmem
  obtain ⟨ojp, hoj, hid⟩ := hmem
  rw [List.mem_map] at hoj
  obtain ⟨i, _, rfl⟩ := hoj
  simp only [id_eq] at hid
  have hf := mkJobPosting_fields hid
  refine ⟨?_, ⟨i.title.getD "", hf.1⟩⟩
  rw [hf.1]
  exact hf.2.1

/-- Concrete input for the C9 witness. -/
def iC9 : CoreInput :=
  { title := some "  Data Engineer  ", company := some "Acme", location := none,
    salary := none, easyApplyText := none, company_logo := none, jobDescHtml := none,
    doc := Node.elem "html" [] [] [], hasClient := false, llmOutcome := LLMOutcome.err,
    url := "u" }

/-- The record the pipeline produces for the C9 witness input. -/
def jpC9 : JobPosting :=
  { title := "Data Engineer", company_name := some "Acme", location := none,
    salary := none, job_type := none, pay := none, work_location := none,
    benefits := none, schedule := none, education := none,
    most_relevant_skills := [], other_relevant_skills := [], easy_apply := false,
    company_logo := none, job_description := none, extra_sections := [],
    job_id := none, jd_url := some "u" }

/-- Witness for C9 at a concrete batch. -/
theorem c9_witness : jpC9.title ≠ "" ∧ ∃ t : String, jpC9.title = pyStrip t :=
  c9_title_invariant [iC9] jpC9
    (by rw [show extractJobsConcurrent [iC9] = [jpC9] from rfl]
        exact List.mem_singleton_self _)

/-- With an absent description container and no structured description hit,
the extraction core reduces to record construction from the structured
fields alone, every description-derived argument being None. -/
theorem extractSingleJob_no_desc (i : CoreInput)
    (hfind : findDescDiv i.doc = none) (hjd : i.jobDescHtml = none) :
    extractSingleJob i = mkJobPosting (i.title.getD "") i.company i.location i.salary
      none none none none none none none none (optStrTruthy i.easyApplyText)
      i.company_logo none [] (jobIdFromUrl i.url) (some i.url) := by
  have hsec : extract_job_description_sections i.doc = [] := by
    unfold extract_job_description_sections
    rw [hfind]
  have hdesc : jobDescTextOf i = none := by
    unfold jobDescTextOf
    rw [hjd]
  unfold extractSingleJob mergedFieldsNew
  rw [hsec, hdesc]
  rfl

/-- Record construction when every description-derived argument is None:
only the title validation can fail, and all description-derived output
fields are absent. -/
theorem mkJobPosting_all_none {title : String} {company_name location salary : Option String}
    {easy_apply : Bool} {company_logo job_description : Option String}
    {extra_sections : List (String × PyVal)} {job_id jd_url : Option String} :
    mkJobPosting title company_name location salary none none none none none none none none
      easy_apply company_logo job_description extra_sections job_id jd_url =
    (if strIsEmpty (pyStrip title) then none else
      some { title := pyStrip title, company_name, location,
             salary := normalize_currency_opt salary, job_type := none, pay := none,
             work_location := none, benefits := none, schedule := none, education := none,
             most_relevant_skills := [], other_relevant_skills := [],
             easy_apply, company_logo, job_description, extra_sections, job_id, jd_url }) := by
  unfold mkJobPosting
  split <;> rfl

/-- C5: when the description container is absent, the section segmenter
returns the empty section map without raising; no regex or generative pass
is attempted (the result does not depend on the generative client or its
outcome); and every description-derived field of the output record is
absent. -/
theorem c5_missing_container : ∀ i : CoreInput,
    findDescDiv i.doc = none → i.jobDescHtml = none →
    extract_job_description_sections i.doc = [] ∧
    (∀ (hc₁ hc₂ : Bool) (o₁ o₂ : LLMOutcome),
      extractSingleJob { i with hasClient := hc₁, llmOutcome := o₁ } =
        extractSingleJob { i with hasClient := hc₂, llmOutcome := o₂ }) ∧
    (∀ jp, extractSingleJob i = some jp →
      jp.job_type = none ∧ jp.pay = none ∧ jp.work_location = none ∧
      jp.benefits = none ∧ jp.schedule = none ∧ jp.education = none ∧
      jp.most_relevant_skills = [] ∧ jp.other_relevant_skills = [] ∧
      jp.extra_sections = [] ∧ jp.job_description = none) := by
  intro i hfind hjd
  have hsec : extract_job_description_sections i.doc = [] := by
    unfold extract_job_description_sections
    rw [hfind]
  refine ⟨hsec, ?_, ?_⟩
  · intro hc₁ hc₂ o₁ o₂
    rw [extractSingleJob_no_desc { i with hasClient := hc₁, llmOutcome := o₁ } hfind hjd,
        extractSingleJob_no_desc { i with hasClient := hc₂, llmOutcome := o₂ } hfind hjd]
  · intro jp h
    rw [extractSingleJob_no_desc i hfind hjd, mkJobPosting_all_none] at h
    split at h
    · exact absurd h (by simp)
    · rw [Option.some_inj] at h
      subst h
      exact ⟨rfl, rfl, rfl, rfl, rfl, rfl, rfl, rfl, rfl, rfl⟩

/-- Concrete input for the C5 witness: a page with no description
container. -/
def iC5 : CoreInput :=
  { title := some "Clerk", company := none, location := none, salary := none,
    easyApplyText := none, company_logo := none, jobDescHtml := none,
    doc := Node.elem "body" [] [] [Node.elem "p" [] [] [Node.text "No description here"]],
    hasClient := true, llmOutcome := LLMOutcome.ok "irrelevant", url := "u" }

/-- Witness for C5 at a concrete document. -/
theorem c5_witness : extract_job_description_sections iC5.doc = [] :=
  (c5_missing_container iC5 rfl rfl).1

/-- A non-empty string is truthy (over the character list). -/
theorem strIsEmpty_false_of_ne (s : String) (h : s ≠ "") : strIsEmpty s = false := by
  cases s with
  | mk data =>
    cases data with
    | nil => exact absurd rfl h
    | cons c cs => rfl

/-- The regex-fallback pass of new_glassdoor.py leaves all fields
unchanged, whatever the description text (the locals() writes are lost). -/
theorem regexFallbackPassNew_id (jd : Option String) (fs : ScalarFields) :
    regexFallbackPassNew jd fs = fs := by
  cases jd <;> rfl

/-- A truthy segmented jobType survives the whole fallback cascade of
new_glassdoor.py. -/
theorem mergedFieldsNew_jobType_seg (i : CoreInput) (v : PyVal)
    (hs : pyGet (extract_job_description_sections i.doc) "jobType" = some v)
    (hv : pyTruthy v = true) :
    (mergedFieldsNew i).1.jobType = some v := by
  unfold mergedFieldsNew
  simp only [regexFallbackPassNew_id, hs]
  split
  · simp [pyOrVal, optTruthy, hv]
  · rfl

/-- When the segmenter produced no jobType and description text is
available, the merged jobType of new_glassdoor.py is the generative value
(the regex pass cannot contribute because its writes are lost). -/
theorem mergedFieldsNew_jobType_llm (i : CoreInput)
    (hs : pyGet (extract_job_description_sections i.doc) "jobType" = none)
    (hd : optStrTruthy (jobDescTextOf i) = true) :
    (mergedFieldsNew i).1.jobType =
      some (extract_fields i.hasClient ((jobDescTextOf i).getD "") i.llmOutcome).jobType := by
  unfold mergedFieldsNew
  simp only [regexFallbackPassNew_id, hs, hd]
  simp [pyOrVal, optTruthy]

/-- In run_glassdoor_scraper.py, a regex hit on a field the segmenter
missed survives the generative stage: the or-chain keeps the truthy regex
value. -/
theorem mergeRun_regex_wins (fs : RunFields) (d : String) (llama : List (String × PyVal))
    (r : String) (hfs : optTruthy fs.jobType = false)
    (hreg : extract_field_by_regex d "jobType" = some r) (hr : r ≠ "") :
    (mergeRunFields fs (some d) llama).jobType = some (PyVal.str r) := by
  have hd : strIsEmpty d = false := by
    cases hde : strIsEmpty d
    · rfl
    · unfold extract_field_by_regex at hreg
      rw [show patternsRun.lookup "jobType" = some reJobType from rfl, hde] at hreg
      simp at hreg
  have hfs1 : (regexFallbackPassRun d fs).jobType = some (PyVal.str r) := by
    unfold regexFallbackPassRun
    simp [hfs, hreg, strOpt]
  have htr : optTruthy (some (PyVal.str r)) = true := by
    simp [optTruthy, pyTruthy, strIsEmpty_false_of_ne r hr]
  unfold mergeRunFields
  simp only [hd, Bool.not_false, if_true]
  split
  · simp [pyOrOpt, hfs1, htr]
  · exact hfs1

/-- C1 (amended): structured title, company and location reach the merged
record verbatim (title trimmed and non-empty; salary additionally passes
currency normalization); a truthy segmented jobType is kept against every
later strategy; but in new_glassdoor.py the regex pass cannot contribute —
its locals() writes are lost — so when the segmenter found nothing the
accepted value is the generative one; in run_glassdoor_scraper.py the
regex hit does win over the generative result as the spec states. -/
theorem c1_merge_amended :
    (∀ (i : CoreInput) (jp : JobPosting), extractSingleJob i = some jp →
      jp.title = pyStrip (i.title.getD "") ∧ jp.title ≠ "" ∧
      jp.company_name = i.company ∧ jp.location = i.location ∧
      jp.salary = normalize_currency_opt i.salary) ∧
    (∀ (i : CoreInput) (jp : JobPosting) (s : String), extractSingleJob i = some jp →
      pyGet (extract_job_description_sections i.doc) "jobType" = some (PyVal.str s) →
      s ≠ "" → jp.job_type = some s) ∧
    (∀ (i : CoreInput) (jp : JobPosting) (s : String), extractSingleJob i = some jp →
      pyGet (extract_job_description_sections i.doc) "jobType" = none →
      optStrTruthy (jobDescTextOf i) = true →
      (extract_fields i.hasClient ((jobDescTextOf i).getD "") i.llmOutcome).jobType = PyVal.str s →
      jp.job_type = some s) ∧
    (∀ (fs : RunFields) (d : String) (llama : List (String × PyVal)) (r : String),
      optTruthy fs.jobType = false → extract_field_by_regex d "jobType" = some r → r ≠ "" →
      (mergeRunFields fs (some d) llama).jobType = some (PyVal.str r)) := by
  refine ⟨?_, ?_, ?_, mergeRun_regex_wins⟩
  · intro i jp h
    have hf := mkJobPosting_fields h
    exact ⟨hf.1, by rw [hf.1]; exact hf.2.1, hf.2.2.1, hf.2.2.2.1, hf.2.2.2.2.1⟩
  · intro i jp s h hs hne
    have hf := mkJobPosting_fields h
    have hjt := hf.2.2.2.2.2.1
    rw [mergedFieldsNew_jobType_seg i (PyVal.str s) hs
      (by simp [pyTruthy, strIsEmpty_false_of_ne s hne])] at hjt
    simp only [asOptStr, Option.some_inj] at hjt
    exact hjt.symm
  · intro i jp s h hs hd hllm
    have hf := mkJobPosting_fields h
    have hjt := hf.2.2.2.2.2.1
    rw [mergedFieldsNew_jobType_llm i hs hd, hllm] at hjt
    simp only [asOptStr, Option.some_inj] at hjt
    exact hjt.symm

/-- Document of the C1 counterexample: the description container holds only
plain text, so the segmenter commits nothing. -/
def docC1 : Node :=
  Node.elem "html" [] []
    [Node.elem "div" ["JobDetails_jobDescription__uW_fK"] []
      [Node.text "Job Type: Full-time. Some other text."]]

/-- Input of the C1 counterexample: description text carries a regex hit
for jobType, the generative reply says Contract. -/
def iC1 : CoreInput :=
  { title := some "Engineer", company := none, location := none, salary := none,
    easyApplyText := none, company_logo := none, jobDescHtml := some "x", doc := docC1,
    hasClient := true, llmOutcome := LLMOutcome.ok "\x7b\"jobType\": \"Contract\"\x7d",
    url := "https://g.x/job?jl=123" }

/-- C1 counterexample: the regex pattern matches Full-time in the
description, the segmenter found no jobType, yet the merged record holds
the generative value Contract — the regex hit is not the value the merge
accepts, contradicting the claim as stated. -/
theorem c1_merge_counterexample :
    extract_with_regex_fallback "Job Type: Full-time. Some other text." "jobType" =
      some "Full-time" ∧
    pyGet (extract_job_description_sections iC1.doc) "jobType" = none ∧
    (extractSingleJob iC1).map (fun jp => jp.job_type) = some (some "Contract") :=
  ⟨by decide, rfl, by decide⟩

/-- Document of the C1 witness: a segmented jobType header and value. -/
def docW1 : Node :=
  Node.elem "html" [] []
    [Node.elem "div" ["JobDetails_jobDescription__uW_fK"] []
      [Node.elem "b" [] [] [Node.text "Job Type:"], Node.elem "p" [] [] [Node.text "Remote"]]]

/-- Input of the C1 witness with a segmented jobType. -/
def iW1 : CoreInput :=
  { title := some "Engineer", company := none, location := none, salary := none,
    easyApplyText := none, company_logo := none, jobDescHtml := some "x", doc := docW1,
    hasClient := true, llmOutcome := LLMOutcome.ok "\x7b\"jobType\": \"Contract\"\x7d",
    url := "https://g.x/job?jl=99" }

/-- The record produced for the C1 witness input with a segmented value. -/
def jpW1 : JobPosting :=
  { title := "Engineer", company_name := none, location := none, salary := none,
    job_type := some "Remote", pay := some "Not specified",
    work_location := some "Not specified", benefits := some (PyVal.str "Not specified"),
    schedule := some (PyVal.str "Not specified"), education := some "Not specified",
    most_relevant_skills := [], other_relevant_skills := [], easy_apply := false,
    company_logo := none, job_description := some "Job Type:\nRemote",
    extra_sections := [("jobType", PyVal.str "Remote")], job_id := some "99",
    jd_url := some "https://g.x/job?jl=99" }

/-- The record produced for the C1 counterexample input. -/
def jpC1 : JobPosting :=
  { title := "Engineer", company_name := none, location := none, salary := none,
    job_type := some "Contract", pay := some "Not specified",
    work_location := some "Not specified", benefits := some (PyVal.str "Not specified"),
    schedule := some (PyVal.str "Not specified"), education := some "Not specified",
    most_relevant_skills := [], other_relevant_skills := [], easy_apply := false,
    company_logo := none, job_description := some "Job Type: Full-time. Some other text.",
    extra_sections := [], job_id := some "123",
    jd_url := some "https://g.x/job?jl=123" }

/-- All-missing field state for the run-variant part of the C1 witness. -/
def runFsW : RunFields :=
  { jobType := none, pay := none, workLocation := none, benefits := none,
    schedule := none, education := none, mostRelevantSkills := none,
    otherRelevantSkills := none }

/-- Witness for C1 at concrete inputs: a segmented hit survives, the
generative value fills a segmenter miss in new_glassdoor.py, and the regex
hit wins in run_glassdoor_scraper.py. -/
theorem c1_merge_witness :
    jpW1.job_type = some "Remote" ∧
    jpC1.job_type = some "Contract" ∧
    (mergeRunFields runFsW (some "Job Type: Full-time. Some other text.") []).jobType =
      some (PyVal.str "Full-time") :=
  ⟨c1_merge_amended.2.1 iW1 jpW1 "Remote" rfl rfl (by decide),
   c1_merge_amended.2.2.1 iC1 jpC1 "Contract" rfl rfl rfl rfl,
   c1_merge_amended.2.2.2 runFsW "Job Type: Full-time. Some other text." [] "Full-time"
     rfl (by decide) (by decide)⟩

/-- The generative reply dict of the C2 stub. -/
def stubC2 : List (String × PyVal) :=
  [("jobType", PyVal.str "Not specified"),
   ("mostRelevantSkills", PyVal.list [PyVal.str "Python", PyVal.str "SQL"])]

/-- Document for C2: a description container with plain text only, so the
segmenter commits nothing and the generative gate fires. -/
def docC2 : Node :=
  Node.elem "html" [] []
    [Node.elem "div" ["JobDetails_jobDescription__uW_fK"] []
      [Node.text "We need a developer."]]

/-- Input for C2: the generative reply returns the sentinel for jobType
and a two-skill list. -/
def iC2 : CoreInput :=
  { title := some "Engineer", company := none, location := none, salary := none,
    easyApplyText := none, company_logo := none, jobDescHtml := some "x", doc := docC2,
    hasClient := true,
    llmOutcome := LLMOutcome.ok
      "\x7b\"jobType\": \"Not specified\", \"mostRelevantSkills\": [\"Python\", \"SQL\"]\x7d",
    url := "u" }

/-- C2 counterexample: with the stub reply of the claim, the merged record
holds the literal string Not specified as jobType — it is not absent, so
the sentinel is not excluded during merge. -/
theorem c2_sentinel_counterexample :
    (extractSingleJob iC2).map (fun jp => jp.job_type) = some (some "Not specified") := rfl

/-- C2 (amended): the normalization of the generative reply keeps the
default sentinel string for a sentinel scalar instead of removing the key,
and the merge copies that literal string into the record: jobType becomes
the string Not specified, while mostRelevantSkills is taken over as the
list Python, SQL exactly as the claim states. -/
theorem c2_sentinel_amended :
    (_normalize_llm_fields stubC2).map (fun f => f.jobType) = some (PyVal.str "Not specified") ∧
    (_normalize_llm_fields stubC2).map (fun f => f.mostRelevantSkills) = some ["Python", "SQL"] ∧
    (extractSingleJob iC2).map (fun jp => jp.job_type) = some (some "Not specified") ∧
    (extractSingleJob iC2).map (fun jp => jp.most_relevant_skills) = some ["Python", "SQL"] :=
  ⟨rfl, rfl, rfl, rfl⟩

/-- C3 counterexample: when the groq package is absent,
extract_fields_with_llama of run_glassdoor_scraper.py raises ImportError
to its caller instead of returning the defaults. -/
theorem c3_generative_counterexample :
    extract_fields_with_llama false LLMOutcome.err =
      PyResult.exn
        "ImportError: groq Python package is not installed. Please install it with pip install groq." :=
  rfl

/-- C3 (amended): the class-based extractor of new_glassdoor.py never
raises: a missing client, an empty text, a failed call, and a reply whose
direct and brace-substring parses both fail all yield the same all-default
structure, and a reply whose brace-delimited substring parses is rescued;
but extract_fields_with_llama of run_glassdoor_scraper.py raises
ImportError when the groq package is absent (see the counterexample). -/
theorem c3_generative_amended :
    (∀ (txt : String) (o : LLMOutcome), extract_fields false txt o = _get_default_fields) ∧
    (∀ (hc : Bool) (txt : String), extract_fields hc txt LLMOutcome.err = _get_default_fields) ∧
    (∀ (hc : Bool) (txt : String) (o : LLMOutcome),
      extract_fields false txt o = extract_fields hc txt LLMOutcome.err) ∧
    (∀ (content txt : String), jsonParse content = none →
      ((braceSubstring content).bind jsonParse) = none →
      extract_fields true txt (LLMOutcome.ok content) = _get_default_fields) ∧
    (extract_fields true "desc"
      (LLMOutcome.ok "Sure: \x7b\"jobType\": \"Remote\"\x7d done")).jobType = PyVal.str "Remote" := by
  have h1 : ∀ (txt : String) (o : LLMOutcome), extract_fields false txt o = _get_default_fields :=
    fun txt o => rfl
  have h2 : ∀ (hc : Bool) (txt : String), extract_fields hc txt LLMOutcome.err = _get_default_fields := by
    intro hc txt
    cases hc
    · rfl
    · unfold extract_fields
      split <;> rfl
  refine ⟨h1, h2, fun hc txt o => by rw [h1, h2], ?_, rfl⟩
  intro content txt hp hb
  have hplr : _parse_llm_response content = [] := by
    unfold _parse_llm_response
    rw [hp]
    change parseBraceRetry content = []
    unfold parseBraceRetry
    cases hbs : braceSubstring content with
    | none => rfl
    | some sub =>
      rw [hbs] at hb
      simp only [Option.some_bind] at hb
      change parseSubDict sub = []
      unfold parseSubDict
      rw [hb]
  unfold extract_fields
  split
  · rfl
  · change extractFieldsReply content = _get_default_fields
    unfold extractFieldsReply
    rw [hplr]
    rfl

/-- Witness for C3 at a concrete unparsable reply. -/
theorem c3_generative_witness :
    extract_fields true "desc" (LLMOutcome.ok "no json at all") = _get_default_fields :=
  c3_generative_amended.2.2.2.1 "no json at all" "desc" rfl rfl

/-- Document for C8: a labeled pay paragraph under the description
container, segmented into the pay section. -/
def docC8 : Node :=
  Node.elem "html" [] []
    [Node.elem "div" ["JobDetails_jobDescription__uW_fK"] []
      [Node.elem "b" [] [] [Node.text "Pay:"], Node.elem "p" [] [] [Node.text "₹50,000 per month"]]]

/-- Input for C8 whose generative reply would rewrite pay if consulted. -/
def iC8a : CoreInput :=
  { title := some "Engineer", company := none, location := none, salary := none,
    easyApplyText := none, company_logo := none, jobDescHtml := some "x", doc := docC8,
    hasClient := true, llmOutcome := LLMOutcome.ok "\x7b\"pay\": \"XXX\"\x7d", url := "u" }

/-- Input for C8 whose generative call fails. -/
def iC8b : CoreInput :=
  { iC8a with llmOutcome := LLMOutcome.err }

/-- C8 (amended): normalize_currency deletes exactly the characters
outside its class — the class holds digits, the comma, the dollar sign,
whitespace, and the whole range from the period to the rupee sign
(which keeps letters, so per month survives), while the hyphen-minus and
the ASCII punctuation below the period are deleted; the segmented labeled
paragraph merges pay as the unchanged string ₹50,000 per month whatever
the generative outcome. -/
theorem c8_currency_amended :
    (∀ s : String, normalize_currency s = pyStrip (String.mk (s.data.filter keepCurrencyChar))) ∧
    keepCurrencyChar '-' = false ∧ keepCurrencyChar '(' = false ∧ keepCurrencyChar '+' = false ∧
    keepCurrencyChar 'p' = true ∧ keepCurrencyChar '₹' = true ∧
    normalize_currency "₹50,000 per month" = "₹50,000 per month" ∧
    pyGet (extract_job_description_sections iC8a.doc) "pay" = some (PyVal.str "₹50,000 per month") ∧
    (extractSingleJob iC8a).map (fun jp => jp.pay) = some (some "₹50,000 per month") ∧
    (extractSingleJob iC8b).map (fun jp => jp.pay) = some (some "₹50,000 per month") :=
  ⟨fun s => rfl, rfl, rfl, rfl, rfl, rfl, by decide, rfl, rfl, rfl⟩

/-- C8 counterexample: the hyphen-minus — a separator inside a salary
range — is not retained by normalize_currency, contradicting the claim
that separators are retained. -/
theorem c8_currency_counterexample :
    normalize_currency "₹5,000-6,000" = "₹5,0006,000" := by decide
